import Mathlib

/-!
Shallow embedding of the `datapipelineautomation` ETL pipeline.

Floating-point amounts are modelled as rationals (`ℚ`), dates/timestamps as
year-month-day triples, pandas data frames as lists of typed records, and a
raised Python exception as the `error` side of `Except`.
-/

namespace Pipeline

/-- Calendar date (year, month, day), standing in for pandas timestamps. -/
structure Date where
  year : Int
  month : Nat
  day : Nat
deriving DecidableEq, Repr

/-- Lexicographic comparison of dates: `d₁` is on or before `d₂`.  This is the
order used by the `order_date <= pd.Timestamp.now()` schema check. -/
def Date.le (d₁ d₂ : Date) : Bool :=
  decide (d₁.year < d₂.year ∨
    (d₁.year = d₂.year ∧ (d₁.month < d₂.month ∨
      (d₁.month = d₂.month ∧ d₁.day ≤ d₂.day))))

/-- Raw product row as returned by the remote API (`fakestoreapi` JSON fields
`id`, `title`, `price`, `category` that `transform_data` selects). -/
structure RawProduct where
  id : Int
  title : String
  price : ℚ
  category : String
deriving DecidableEq, Repr

/-- Raw order row as produced by `extract_from_csv` (columns `order_id`,
`customer_name`, `order_amount`, `order_date`). -/
structure RawOrder where
  order_id : Int
  customer_name : String
  order_amount : ℚ
  order_date : Date
deriving DecidableEq, Repr

/-- Transformed product row: renamed API columns plus `source`,
`load_timestamp` and the derived `price_with_tax` (lines 99-108). -/
structure Product where
  product_id : Int
  product_name : String
  unit_price : ℚ
  product_category : String
  source : String
  load_timestamp : Date
  price_with_tax : ℚ
deriving DecidableEq, Repr

/-- Transformed order row: selected CSV columns plus `source`,
`load_timestamp` and the derived `order_year` (lines 116-120). -/
structure OrderRow where
  order_id : Int
  customer_name : String
  order_amount : ℚ
  order_date : Date
  source : String
  load_timestamp : Date
  order_year : Int
deriving DecidableEq, Repr

/-- Row of `pd.merge(csv_df, api_df[...], on='product_id', how='left')`:
the joined product columns are `Option`s because a left join leaves them
null (`NaN`) when no product row matches (lines 128-133). -/
structure MergedRow where
  order_id : Int
  customer_name : String
  order_amount : ℚ
  order_date : Date
  source : String
  load_timestamp : Date
  order_year : Int
  product_id : Int
  product_name : Option String
  unit_price : Option ℚ
  product_category : Option String
  price_with_tax : Option ℚ
deriving DecidableEq, Repr

/-- Final combined record after `total_order_value` and `fillna`
(lines 134-140).  `total_order_value` stays optional because it is computed
before `fillna` and `fillna` does not touch it, so a null `price_with_tax`
propagates a null total. -/
structure Combined where
  order_id : Int
  customer_name : String
  order_amount : ℚ
  order_date : Date
  source : String
  load_timestamp : Date
  order_year : Int
  product_id : Int
  product_name : String
  unit_price : ℚ
  product_category : String
  price_with_tax : ℚ
  total_order_value : Option ℚ
deriving DecidableEq, Repr

/-- Exceptions raised inside `transform_data`: the two lazy pandera
`SchemaErrors` (line 109 for products, line 141 for the combined table). -/
inductive PipelineError where
  | productValidation
  | combinedValidation
deriving DecidableEq, Repr

/-- Embedding of `product_schema.validate` (lines 39-45): every row must have
`product_id >= 1`, non-empty `product_name`, `unit_price > 0`, non-empty
`product_category` and `price_with_tax > 0`; lazy validation passes iff no
row violates any column check. -/
def product_schema (rows : List Product) : Bool :=
  rows.all fun p =>
    decide (1 ≤ p.product_id) &&
    decide (1 ≤ p.product_name.length) &&
    decide (0 < p.unit_price) &&
    decide (1 ≤ p.product_category.length) &&
    decide (0 < p.price_with_tax)

/-- Embedding of `order_schema.validate` (lines 47-53): it constrains exactly
the five declared columns `order_id`, `customer_name`, `order_amount`,
`order_date`, `total_order_value`; pandera ignores the undeclared columns of
the frame (non-strict schema).  A null (`none`) `total_order_value` violates
`nullable=False`. -/
def order_schema (rows : List Combined) (now : Date) : Bool :=
  rows.all fun r =>
    decide (100 ≤ r.order_id) &&
    decide (1 ≤ r.customer_name.length) &&
    decide (0 < r.order_amount) &&
    Date.le r.order_date now &&
    (match r.total_order_value with
     | some v => decide (0 < v)
     | none => false)

/-- Product-side transformation (lines 99-108): select/rename the four API
columns, tag `source='API'`, stamp `load_timestamp`, derive
`price_with_tax = unit_price * 1.10`. -/
def apiTransform (api_df : List RawProduct) (now : Date) : List Product :=
  api_df.map fun r =>
    { product_id := r.id
      product_name := r.title
      unit_price := r.price
      product_category := r.category
      source := "API"
      load_timestamp := now
      price_with_tax := r.price * (11 / 10) }

/-- Order-side transformation (lines 116-120): select the four CSV columns,
tag `source='CSV'`, stamp `load_timestamp`, derive `order_year` from the
parsed `order_date`. -/
def csvTransform (csv_df : List RawOrder) (now : Date) : List OrderRow :=
  csv_df.map fun o =>
    { order_id := o.order_id
      customer_name := o.customer_name
      order_amount := o.order_amount
      order_date := o.order_date
      source := "CSV"
      load_timestamp := now
      order_year := o.order_date.year }

/-- Left-join of one order row (whose `product_id` was overwritten with
`pid`, line 127) against the product table (lines 128-133): one output row
per matching product, or a single row with null product columns when nothing
matches. -/
def mergeMatches (products : List Product) (pid : Int) (o : OrderRow) :
    List MergedRow :=
  let ms := products.filter fun p => decide (p.product_id = pid)
  if ms.isEmpty then
    [{ order_id := o.order_id, customer_name := o.customer_name
       order_amount := o.order_amount, order_date := o.order_date
       source := o.source, load_timestamp := o.load_timestamp
       order_year := o.order_year, product_id := pid
       product_name := none, unit_price := none
       product_category := none, price_with_tax := none }]
  else
    ms.map fun p =>
      { order_id := o.order_id, customer_name := o.customer_name
        order_amount := o.order_amount, order_date := o.order_date
        source := o.source, load_timestamp := o.load_timestamp
        order_year := o.order_year, product_id := pid
        product_name := some p.product_name, unit_price := some p.unit_price
        product_category := some p.product_category
        price_with_tax := some p.price_with_tax }

/-- Post-join steps (lines 134-140): `total_order_value = order_amount +
price_with_tax` is computed first (null-propagating), then `fillna` replaces
null product columns with `'Unknown'`, `0`, `'N/A'`, `0` — it does not touch
`total_order_value`. -/
def finishRow (m : MergedRow) : Combined :=
  { order_id := m.order_id, customer_name := m.customer_name
    order_amount := m.order_amount, order_date := m.order_date
    source := m.source, load_timestamp := m.load_timestamp
    order_year := m.order_year, product_id := m.product_id
    product_name := m.product_name.getD "Unknown"
    unit_price := m.unit_price.getD 0
    product_category := m.product_category.getD "N/A"
    price_with_tax := m.price_with_tax.getD 0
    total_order_value := m.price_with_tax.map fun t => m.order_amount + t }

/-- The combined table of lines 127-140: every order row is assigned the
first product's `product_id` and left-joined with the product table.  When
the product table is empty, `api_df['product_id'].iloc[0]` has no row to
read; this function is only reached under the non-emptiness guard of
line 126. -/
def combineTables (products : List Product) (orders : List OrderRow) :
    List Combined :=
  match products with
  | [] => []
  | p₀ :: _ => orders.flatMap fun o =>
      (mergeMatches products p₀.product_id o).map finishRow

/-- The combined table `transform_data` builds and validates for given raw
inputs. -/
def combinedOf (api_df : List RawProduct) (csv_df : List RawOrder)
    (now : Date) : List Combined :=
  combineTables (apiTransform api_df now) (csvTransform csv_df now)

/-- Embedding of `transform_data` (lines 93-150): transform and validate the
product table when non-empty (a lazy validation failure raises), transform
the order table when non-empty, and combine and validate only when both are
non-empty, returning an empty frame otherwise.  A raised exception is the
`error` case. -/
def transform_data (api_df : List RawProduct) (csv_df : List RawOrder)
    (now : Date) : Except PipelineError (List Combined) :=
  if !api_df.isEmpty && !(product_schema (apiTransform api_df now)) then
    .error .productValidation
  else if !csv_df.isEmpty && !api_df.isEmpty then
    let combined_df := combinedOf api_df csv_df now
    if order_schema combined_df now then .ok combined_df
    else .error .combinedValidation
  else
    .ok []

/-- Observable outcome of one `run_pipeline` invocation. -/
inductive RunResult where
  | abortedNoData
  | failed (e : PipelineError)
  | abortedNothingToLoad
  | loaded (table : List Combined)
deriving DecidableEq, Repr

/-- Line 178's guard: the Transformer is invoked iff at least one extracted
table is non-empty. -/
def transformerInvoked (api_data : List RawProduct)
    (csv_data : List RawOrder) : Bool :=
  !api_data.isEmpty || !csv_data.isEmpty

/-- Embedding of `run_pipeline` (lines 166-194) after the two extractions
have produced their tables: abort before transform only when both tables are
empty (line 178), propagate a transform exception as a failed run, abort
before load when the transformed table is empty (lines 185-189), otherwise
hand the table to the Loader. -/
def run_pipeline (api_data : List RawProduct) (csv_data : List RawOrder)
    (now : Date) : RunResult :=
  if transformerInvoked api_data csv_data then
    match transform_data api_data csv_data now with
    | .error e => .failed e
    | .ok t => if t.isEmpty then .abortedNothingToLoad else .loaded t
  else
    .abortedNoData

/-- Whether the Loader (`load_to_csv`, line 186) was invoked in a run. -/
def loaderInvoked : RunResult → Bool
  | .loaded _ => true
  | _ => false

/-- Embedding of `load_to_csv` (lines 153-160): `df.to_csv(..., index=False)`
writes the header row (the frame's columns, in order) followed by the data
rows. -/
def load_to_csv (cols : List String) (rows : List (List String)) :
    List (List String) :=
  cols :: rows

/-- Columns selected from the raw order frame (line 116). -/
def csvSelectedColumns : List String :=
  ["order_id", "customer_name", "order_amount", "order_date"]

/-- Order-frame columns after lines 117-120: `source` and `load_timestamp`
are appended before `order_year` (`order_date` is converted in place). -/
def csvColumns : List String :=
  csvSelectedColumns ++ ["source", "load_timestamp"] ++ ["order_year"]

/-- Product columns selected for the merge (line 130). -/
def productMergeColumns : List String :=
  ["product_id", "product_name", "unit_price", "product_category",
   "price_with_tax"]

/-- Column order of `pd.merge(left, right, on=key)`: the left frame's
columns in order, then the right frame's columns minus the join key. -/
def mergeColumns (left right : List String) (key : String) : List String :=
  left ++ right.filter fun c => c != key

/-- Column order of the combined frame: the order frame gains `product_id`
(line 127), is merged with the product columns (lines 128-133), and
`total_order_value` is appended (line 134). -/
def combinedColumns : List String :=
  mergeColumns (csvColumns ++ ["product_id"]) productMergeColumns
    "product_id" ++ ["total_order_value"]

/-- Column order asserted by the spec's output-file contract (section 6),
for comparison with the order the code actually produces. -/
def specCombinedColumns : List String :=
  ["order_id", "customer_name", "order_amount", "order_date", "order_year",
   "source", "load_timestamp", "product_id", "product_name", "unit_price",
   "product_category", "price_with_tax", "total_order_value"]

/-- Python's `round(x, 2)` on a rational: round to the nearest hundredth. -/
def round2 (q : ℚ) : ℚ := (round (q * 100) : ℤ) / 100

/-- Embedding of `extract_from_csv` (lines 72-90): 50 rows with
`order_id = 101..150`, generator-supplied names and dates, and
`order_amount = round(uniform(50.0, 500.0), 2)`.  The generator outputs
(faker names, `random.uniform` draws, faker dates) are parameters; the
CSV round-trip is shape-preserving and omitted. -/
def extract_from_csv (names : Nat → String) (amounts : Nat → ℚ)
    (dates : Nat → Date) : List RawOrder :=
  (List.range 50).map fun (i : Nat) =>
    { order_id := Int.ofNat (101 + i)
      customer_name := names i
      order_amount := round2 (amounts i)
      order_date := dates i }

/-- Tenacity's `wait_exponential(multiplier, min, max)` at a given attempt
number: `max(max(0, min), min(multiplier * 2 ^ attempt_number, max))`. -/
def waitExponential (multiplier minW maxW : ℚ) (attemptNumber : Nat) : ℚ :=
  max (max 0 minW) (min (multiplier * 2 ^ attemptNumber) maxW)

/-- The backoff configured on `extract_from_api` (line 56):
`wait_exponential(multiplier=1, min=4, max=10)`. -/
def apiWait (attemptNumber : Nat) : ℚ := waitExponential 1 4 10 attemptNumber

/-- What the retry decorator lets escape to the caller: either the original
exception propagates as-is, or tenacity's `RetryError` wrapping the final
attempt's exception (the default `reraise=False` behaviour when
`stop_after_attempt` fires). -/
inductive RaisedError (E : Type) where
  | underlying (e : E)
  | retryError (last : E)
deriving DecidableEq, Repr

/-- Observable trace of one decorated call: the value returned or error
raised, how many attempts were made, and the sleeps between attempts. -/
structure RetryTrace (E A : Type) where
  result : Except (RaisedError E) A
  attemptsMade : Nat
  delays : List ℚ
deriving Repr

/-- Embedding of the decorated `extract_from_api` (line 56):
`@retry(stop=stop_after_attempt(3), wait=wait_exponential(multiplier=1,
min=4, max=10))` with tenacity's default `reraise=False`.  `f k` is the
outcome of the k-th underlying call (the body re-raises any
`RequestException`).  After a failed attempt `k < 3` the worker sleeps
`apiWait k` and retries; a third failure raises `RetryError` wrapping the
last exception. -/
def extract_from_api (f : Nat → Except E A) : RetryTrace E A :=
  match f 1 with
  | .ok a => ⟨.ok a, 1, []⟩
  | .error _ =>
    match f 2 with
    | .ok a => ⟨.ok a, 2, [apiWait 1]⟩
    | .error _ =>
      match f 3 with
      | .ok a => ⟨.ok a, 3, [apiWait 1, apiWait 2]⟩
      | .error e => ⟨.error (.retryError e), 3, [apiWait 1, apiWait 2]⟩

/-! ### Claim theorems -/

/-- C1: for the spec's end-to-end example — one product
`{id:1, title:"Widget", price:10.0, category:"tools"}` and one order
`{order_id:101, customer_name:"A", order_amount:20.0,
order_date:"2024-01-01"}` — `transform_data` returns exactly one Combined
Record with `product_id=1`, `product_name="Widget"`, `unit_price=10.0`,
`product_category="tools"`, `price_with_tax=11.0`, `order_amount=20.0`,
`total_order_value=31.0`, `order_year=2024`, `source="CSV"` (for any
transformation instant not before the order date). -/
theorem transform_end_to_end_example (now : Date)
    (h : Date.le ⟨2024, 1, 1⟩ now = true) :
    transform_data [⟨1, "Widget", 10, "tools"⟩]
        [⟨101, "A", 20, ⟨2024, 1, 1⟩⟩] now =
      .ok [⟨101, "A", 20, ⟨2024, 1, 1⟩, "CSV", now, 2024, 1, "Widget", 10,
        "tools", 11, some 31⟩] := by
  have h11 : (10 : ℚ) * (11 / 10) = 11 := by norm_num
  simp [transform_data, apiTransform, csvTransform, product_schema,
    order_schema, combinedOf, combineTables, mergeMatches, finishRow, h, h11]
  rw [if_neg (by decide), if_pos ⟨by decide, by norm_num⟩]
  norm_num

/-- Witness for C1 at the concrete instant 2025-01-01. -/
theorem transform_end_to_end_example_witness :
    Date.le ⟨2024, 1, 1⟩ ⟨2025, 1, 1⟩ = true ∧
    transform_data [⟨1, "Widget", 10, "tools"⟩]
        [⟨101, "A", 20, ⟨2024, 1, 1⟩⟩] ⟨2025, 1, 1⟩ =
      .ok [⟨101, "A", 20, ⟨2024, 1, 1⟩, "CSV", ⟨2025, 1, 1⟩, 2024, 1,
        "Widget", 10, "tools", 11, some 31⟩] :=
  ⟨by decide, transform_end_to_end_example ⟨2025, 1, 1⟩ (by decide)⟩

/-- C4: however the underlying calls fail, the decorated remote extractor
makes at most 3 attempts; the delay slept before the k-th retry is
`apiWait k`, which follows the exponential law `max 4 (min (2 ^ k) 10)` —
non-decreasing in `k`, starting from the base 4, never above the cap 10. -/
theorem retry_bound {E A : Type} (f : Nat → Except E A) (j k : Nat)
    (hjk : j ≤ k) :
    (extract_from_api f).attemptsMade ≤ 3 ∧
    (extract_from_api f).delays =
      (List.range ((extract_from_api f).attemptsMade - 1)).map
        (fun i => apiWait (i + 1)) ∧
    apiWait j ≤ apiWait k ∧
    apiWait k = max 4 (min (2 ^ k) 10) ∧
    4 ≤ apiWait k ∧ apiWait k ≤ 10 := by
  have hlaw : ∀ n, apiWait n = max 4 (min (2 ^ n) 10) := by
    intro n
    simp [apiWait, waitExponential]
  have hmono : apiWait j ≤ apiWait k := by
    rw [hlaw j, hlaw k]
    exact max_le_max le_rfl
      (min_le_min (pow_le_pow_right₀ (by norm_num) hjk) le_rfl)
  refine ⟨?_, ?_, hmono, hlaw k, ?_, ?_⟩
  · rcases h₁ : f 1 with a | e₁ <;> rcases h₂ : f 2 with a | e₂ <;>
      rcases h₃ : f 3 with a | e₃ <;>
      simp [extract_from_api, h₁, h₂, h₃]
  · rcases h₁ : f 1 with a | e₁ <;> rcases h₂ : f 2 with a | e₂ <;>
      rcases h₃ : f 3 with a | e₃ <;>
      simp [extract_from_api, h₁, h₂, h₃, List.range_succ]
  · rw [hlaw k]; exact le_max_left _ _
  · rw [hlaw k]; exact max_le (by norm_num) (min_le_right _ _)

/-- Witness for C4: a remote source that always fails, with retry delays
compared at `j = 1 ≤ k = 2`. -/
theorem retry_bound_witness :
    (extract_from_api fun _ =>
        (Except.error "boom" : Except String Unit)).attemptsMade ≤ 3 ∧
    (extract_from_api fun _ =>
        (Except.error "boom" : Except String Unit)).delays =
      (List.range ((extract_from_api fun _ =>
        (Except.error "boom" : Except String Unit)).attemptsMade - 1)).map
        (fun i => apiWait (i + 1)) ∧
    apiWait 1 ≤ apiWait 2 ∧
    apiWait 2 = max 4 (min (2 ^ 2) 10) ∧
    4 ≤ apiWait 2 ∧ apiWait 2 ≤ 10 :=
  retry_bound (fun _ => (Except.error "boom" : Except String Unit)) 1 2
    (by norm_num)

/-- C5 counterexample: when every attempt fails with the same network
error, the decorated extractor does not raise that underlying exception
itself; it raises tenacity's `RetryError` wrapping the last attempt's
exception (`reraise` is left at its default `False`). -/
theorem retry_exhaustion_counterexample :
    (extract_from_api fun _ =>
        (Except.error "network" : Except String Unit)).result ≠
      Except.error (.underlying "network") ∧
    (extract_from_api fun _ =>
        (Except.error "network" : Except String Unit)).result =
      Except.error (.retryError "network") := by
  constructor
  · intro hcontra
    simp [extract_from_api] at hcontra
  · rfl

/-- C5 amended: when all 3 attempts fail, the call raises a retry-exhausted
error (`RetryError`) wrapping the final underlying exception, and no value
(partial or cached) is returned. -/
theorem retry_exhausted_wraps_last_error {E A : Type}
    (f : Nat → Except E A) (e₁ e₂ e₃ : E)
    (h₁ : f 1 = .error e₁) (h₂ : f 2 = .error e₂) (h₃ : f 3 = .error e₃) :
    (extract_from_api f).result = .error (.retryError e₃) ∧
    ∀ a, (extract_from_api f).result ≠ .ok a := by
  have hres : (extract_from_api f).result = .error (.retryError e₃) := by
    simp [extract_from_api, h₁, h₂, h₃]
  exact ⟨hres, fun a hcontra => by rw [hres] at hcontra; cases hcontra⟩

/-- Witness for C5's amended claim: three failing attempts with distinct
errors; the result wraps the third. -/
theorem retry_exhausted_wraps_last_error_witness :
    (extract_from_api fun k =>
        (Except.error (toString k) : Except String Unit)).result =
      Except.error (.retryError "3") ∧
    ∀ a, (extract_from_api fun k =>
        (Except.error (toString k) : Except String Unit)).result ≠
      Except.ok a :=
  retry_exhausted_wraps_last_error
    (fun k => (Except.error (toString k) : Except String Unit))
    "1" "2" "3" rfl rfl rfl

/-- C2: whenever both input tables are non-empty and the combined table
contains a row with `order_amount <= 0`, `transform_data` raises a
validation error — the whole table is rejected, no output table is
returned and no row is silently dropped. -/
theorem transform_rejects_nonpositive_amount (api_df : List RawProduct)
    (csv_df : List RawOrder) (now : Date)
    (hapi : api_df ≠ []) (hcsv : csv_df ≠ [])
    (hbad : ∃ r ∈ combinedOf api_df csv_df now, r.order_amount ≤ 0) :
    ∃ e, transform_data api_df csv_df now = .error e := by
  have hapi' : api_df.isEmpty = false := List.isEmpty_eq_false.mpr hapi
  have hcsv' : csv_df.isEmpty = false := List.isEmpty_eq_false.mpr hcsv
  cases hps : product_schema (apiTransform api_df now) with
  | false =>
    exact ⟨.productValidation, by simp [transform_data, hapi', hps]⟩
  | true =>
    obtain ⟨r, hr, hle⟩ := hbad
    have hnotall : ¬ order_schema (combinedOf api_df csv_df now) now = true := by
      rw [order_schema, List.all_eq_true]
      intro hall
      have hrow := hall r hr
      simp only [Bool.and_eq_true, decide_eq_true_eq] at hrow
      exact absurd hrow.1.1.2 (not_lt.mpr hle)
    have hos : order_schema (combinedOf api_df csv_df now) now = false := by
      cases hq : order_schema (combinedOf api_df csv_df now) now with
      | false => rfl
      | true => exact absurd hq hnotall
    exact ⟨.combinedValidation, by simp [transform_data, hapi', hcsv', hps, hos]⟩

/-- Witness for C2: one valid product and one order with a negative
amount. -/
theorem transform_rejects_nonpositive_amount_witness :
    ([⟨1, "Widget", 10, "tools"⟩] : List RawProduct) ≠ [] ∧
    ([⟨101, "A", -5, ⟨2024, 1, 1⟩⟩] : List RawOrder) ≠ [] ∧
    (∃ r ∈ combinedOf [⟨1, "Widget", 10, "tools"⟩]
        [⟨101, "A", -5, ⟨2024, 1, 1⟩⟩] ⟨2025, 1, 1⟩, r.order_amount ≤ 0) ∧
    ∃ e, transform_data [⟨1, "Widget", 10, "tools"⟩]
        [⟨101, "A", -5, ⟨2024, 1, 1⟩⟩] ⟨2025, 1, 1⟩ = .error e := by
  have hmem : ∃ r ∈ combinedOf [⟨1, "Widget", 10, "tools"⟩]
      [⟨101, "A", -5, ⟨2024, 1, 1⟩⟩] ⟨2025, 1, 1⟩, r.order_amount ≤ 0 := by
    refine ⟨finishRow ⟨101, "A", -5, ⟨2024, 1, 1⟩, "CSV", ⟨2025, 1, 1⟩, 2024,
      1, some "Widget", some 10, some "tools", some (10 * (11 / 10))⟩,
      ?_, by norm_num [finishRow]⟩
    simp [combinedOf, combineTables, apiTransform, csvTransform, mergeMatches]
  exact ⟨by simp, by simp, hmem,
    transform_rejects_nonpositive_amount _ _ _ (by simp) (by simp) hmem⟩

/-- C3 counterexample: with a non-empty product table whose single product
has `price = 0` and an empty order table, `transform_data` raises a product
validation error instead of returning an empty table, so the claim's
universal statement fails. -/
theorem transform_empty_input_counterexample :
    transform_data [⟨1, "Widget", 0, "tools"⟩] [] ⟨2025, 1, 1⟩ =
      .error .productValidation ∧
    transform_data [⟨1, "Widget", 0, "tools"⟩] [] ⟨2025, 1, 1⟩ ≠
      .ok [] := by
  have h : transform_data [⟨1, "Widget", 0, "tools"⟩] [] ⟨2025, 1, 1⟩ =
      .error .productValidation := by
    have hps : product_schema
        (apiTransform [⟨1, "Widget", 0, "tools"⟩] ⟨2025, 1, 1⟩) = false := by
      simp [product_schema, apiTransform]
    simp [transform_data, hps]
  exact ⟨h, by simp [h]⟩

/-- C3 amended: when at least one extracted table is empty (but not both)
and the non-empty product table, if any, passes product-schema validation,
`transform_data` returns an empty table and the Orchestrator aborts the run
after transform but before invoking the Loader, so no output file is
written or overwritten. -/
theorem transform_empty_input_aborts (api_df : List RawProduct)
    (csv_df : List RawOrder) (now : Date)
    (hone : api_df = [] ∨ csv_df = [])
    (hnotboth : ¬(api_df = [] ∧ csv_df = []))
    (hvalid : product_schema (apiTransform api_df now) = true) :
    transform_data api_df csv_df now = .ok [] ∧
    run_pipeline api_df csv_df now = .abortedNothingToLoad ∧
    loaderInvoked (run_pipeline api_df csv_df now) = false := by
  have htr : transform_data api_df csv_df now = .ok [] := by
    rcases hone with h | h
    · subst h; simp [transform_data]
    · subst h; simp [transform_data, hvalid]
  have hti : transformerInvoked api_df csv_df = true := by
    cases api_df <;> cases csv_df <;> simp_all [transformerInvoked]
  have hrun : run_pipeline api_df csv_df now = .abortedNothingToLoad := by
    simp [run_pipeline, hti, htr]
  exact ⟨htr, hrun, by simp [loaderInvoked, hrun]⟩

/-- Witness for C3's amended claim: empty product table, one valid order. -/
theorem transform_empty_input_aborts_witness :
    (([] : List RawProduct) = [] ∨
      ([⟨101, "A", 20, ⟨2024, 1, 1⟩⟩] : List RawOrder) = []) ∧
    ¬(([] : List RawProduct) = [] ∧
      ([⟨101, "A", 20, ⟨2024, 1, 1⟩⟩] : List RawOrder) = []) ∧
    product_schema (apiTransform [] ⟨2025, 1, 1⟩) = true ∧
    (transform_data [] [⟨101, "A", 20, ⟨2024, 1, 1⟩⟩] ⟨2025, 1, 1⟩ =
        .ok [] ∧
      run_pipeline [] [⟨101, "A", 20, ⟨2024, 1, 1⟩⟩] ⟨2025, 1, 1⟩ =
        .abortedNothingToLoad ∧
      loaderInvoked (run_pipeline [] [⟨101, "A", 20, ⟨2024, 1, 1⟩⟩]
        ⟨2025, 1, 1⟩) = false) :=
  ⟨Or.inl rfl, by simp, rfl,
    transform_empty_input_aborts [] [⟨101, "A", 20, ⟨2024, 1, 1⟩⟩]
      ⟨2025, 1, 1⟩ (Or.inl rfl) (by simp) rfl⟩

/-- C7 counterexample: with an empty product table and one non-empty order
table, the Orchestrator does invoke the Transformer (line 178's guard is
`or`, not `and`) and aborts only after transform returns an empty table, so
abort-before-transform does not happen whenever merely one source is
empty. -/
theorem orchestrator_abort_counterexample :
    transformerInvoked [] [⟨101, "A", 20, ⟨2024, 1, 1⟩⟩] = true ∧
    run_pipeline [] [⟨101, "A", 20, ⟨2024, 1, 1⟩⟩] ⟨2025, 1, 1⟩ =
      .abortedNothingToLoad ∧
    run_pipeline [] [⟨101, "A", 20, ⟨2024, 1, 1⟩⟩] ⟨2025, 1, 1⟩ ≠
      .abortedNoData := by
  refine ⟨rfl, ?_, ?_⟩
  · have h : transform_data [] [⟨101, "A", 20, ⟨2024, 1, 1⟩⟩]
        ⟨2025, 1, 1⟩ = .ok [] := by simp [transform_data]
    simp [run_pipeline, transformerInvoked, h]
  · intro hcontra
    have h : transform_data [] [⟨101, "A", 20, ⟨2024, 1, 1⟩⟩]
        ⟨2025, 1, 1⟩ = .ok [] := by simp [transform_data]
    simp [run_pipeline, transformerInvoked, h] at hcontra

/-- C7 amended: the Orchestrator aborts before invoking the Transformer
exactly when both extracted tables are empty; when only one is empty the
Transformer is still invoked (and the run is aborted later, before the
Loader). -/
theorem orchestrator_aborts_before_transform_iff_both_empty
    (api_df : List RawProduct) (csv_df : List RawOrder) (now : Date) :
    (run_pipeline api_df csv_df now = .abortedNoData ↔
      api_df = [] ∧ csv_df = []) ∧
    (transformerInvoked api_df csv_df = false ↔
      api_df = [] ∧ csv_df = []) := by
  have hti : transformerInvoked api_df csv_df = false ↔
      api_df = [] ∧ csv_df = [] := by
    cases api_df <;> cases csv_df <;> simp [transformerInvoked]
  refine ⟨⟨fun hrun => ?_, fun h => ?_⟩, hti⟩
  · by_contra hcontra
    have hti' : transformerInvoked api_df csv_df = true := by
      cases h : transformerInvoked api_df csv_df with
      | false => exact absurd (hti.mp h) hcontra
      | true => rfl
    rw [run_pipeline, if_pos hti'] at hrun
    rcases htd : transform_data api_df csv_df now with e | t <;>
      rw [htd] at hrun
    · cases hrun
    · by_cases hemp : t.isEmpty = true <;> simp [hemp] at hrun
  · obtain ⟨rfl, rfl⟩ := h
    rfl

/-- Rounding a rational in `[50, 500]` to two decimal places stays within
`[50, 500]`. -/
theorem round2_bounds {q : ℚ} (h50 : 50 ≤ q) (h500 : q ≤ 500) :
    50 ≤ round2 q ∧ round2 q ≤ 500 := by
  have hlo : (5000 : ℤ) ≤ round (q * 100) := by
    rw [round_eq]
    exact Int.le_floor.mpr (by push_cast; linarith)
  have hhi : round (q * 100) ≤ 50000 := by
    rw [round_eq]
    have h : (⌊q * 100 + 1 / 2⌋ : ℤ) < 50001 :=
      Int.floor_lt.mpr (by push_cast; linarith)
    omega
  have hlo' : (5000 : ℚ) ≤ ((round (q * 100) : ℤ) : ℚ) := by
    exact_mod_cast hlo
  have hhi' : ((round (q * 100) : ℤ) : ℚ) ≤ 50000 := by exact_mod_cast hhi
  rw [round2]
  constructor <;> linarith

/-- C6: every successful synthetic extraction yields exactly 50 rows with
pairwise-distinct `order_id`s all at least 101, `order_amount` in
`(0, 500]`, and `order_date` no later than today — for any generator
outputs satisfying the generators' contracts (`random.uniform(50.0, 500.0)`
draws lie in `[50, 500]`; `faker.date_between('-1y', 'today')` dates are
not in the future). -/
theorem extract_from_csv_shape (names : Nat → String) (amounts : Nat → ℚ)
    (dates : Nat → Date) (today : Date)
    (hamt : ∀ i, 50 ≤ amounts i ∧ amounts i ≤ 500)
    (hdate : ∀ i, Date.le (dates i) today = true) :
    (extract_from_csv names amounts dates).length = 50 ∧
    (∀ r ∈ extract_from_csv names amounts dates, 101 ≤ r.order_id) ∧
    ((extract_from_csv names amounts dates).map RawOrder.order_id).Nodup ∧
    (∀ r ∈ extract_from_csv names amounts dates,
      0 < r.order_amount ∧ r.order_amount ≤ 500) ∧
    (∀ r ∈ extract_from_csv names amounts dates,
      Date.le r.order_date today = true) := by
  refine ⟨by simp [extract_from_csv], ?_, ?_, ?_, ?_⟩
  · intro r hr
    simp [extract_from_csv] at hr
    obtain ⟨i, hi, rfl⟩ := hr
    simp
  · rw [extract_from_csv, List.map_map]
    apply List.Nodup.map
    · intro a b hab
      simp only [Function.comp_apply, RawOrder.mk.injEq] at hab
      injection hab with hab
      omega
    · exact List.nodup_range 50
  · intro r hr
    simp [extract_from_csv] at hr
    obtain ⟨i, hi, rfl⟩ := hr
    have hb := round2_bounds (hamt i).1 (hamt i).2
    exact ⟨lt_of_lt_of_le (by norm_num) hb.1, hb.2⟩
  · intro r hr
    simp [extract_from_csv] at hr
    obtain ⟨i, hi, rfl⟩ := hr
    exact hdate i

/-- Witness for C6: constant generators (name "Bob", amount 100, date
2024-06-15, today 2025-01-01). -/
theorem extract_from_csv_shape_witness :
    (∀ i : Nat, 50 ≤ (100 : ℚ) ∧ (100 : ℚ) ≤ 500) ∧
    (∀ i : Nat,
      Date.le ⟨2024, 6, 15⟩ ⟨2025, 1, 1⟩ = true) ∧
    ((extract_from_csv (fun _ => "Bob") (fun _ => 100)
        (fun _ => ⟨2024, 6, 15⟩)).length = 50 ∧
      (∀ r ∈ extract_from_csv (fun _ => "Bob") (fun _ => 100)
          (fun _ => ⟨2024, 6, 15⟩), 101 ≤ r.order_id) ∧
      ((extract_from_csv (fun _ => "Bob") (fun _ => 100)
          (fun _ => ⟨2024, 6, 15⟩)).map RawOrder.order_id).Nodup ∧
      (∀ r ∈ extract_from_csv (fun _ => "Bob") (fun _ => 100)
          (fun _ => ⟨2024, 6, 15⟩),
        0 < r.order_amount ∧ r.order_amount ≤ 500) ∧
      (∀ r ∈ extract_from_csv (fun _ => "Bob") (fun _ => 100)
          (fun _ => ⟨2024, 6, 15⟩),
        Date.le r.order_date ⟨2025, 1, 1⟩ = true)) :=
  ⟨fun _ => ⟨by norm_num, by norm_num⟩,
    fun _ => (by decide : Date.le ⟨2024, 6, 15⟩ ⟨2025, 1, 1⟩ = true),
    extract_from_csv_shape (fun _ => "Bob") (fun _ => 100)
      (fun _ => ⟨2024, 6, 15⟩) ⟨2025, 1, 1⟩
      (fun _ =>
        (⟨by norm_num, by norm_num⟩ : 50 ≤ (100 : ℚ) ∧ (100 : ℚ) ≤ 500))
      (fun _ =>
        (by decide : Date.le ⟨2024, 6, 15⟩ ⟨2025, 1, 1⟩ = true))⟩

/-- C8 counterexample: the combined frame's columns are not in the order
the claim lists: the code appends `source` and `load_timestamp` to the
order frame before deriving `order_year`, so `order_year` comes after them,
not before. -/
theorem combined_columns_counterexample :
    combinedColumns ≠ specCombinedColumns := by decide

/-- C8 amended: the combined table passed to the Loader has exactly the
claimed column set, but in the order `order_id, customer_name,
order_amount, order_date, source, load_timestamp, order_year, product_id,
product_name, unit_price, product_category, price_with_tax,
total_order_value`; the Loader writes a header row with the columns in that
order, followed by the data rows. -/
theorem combined_columns_order :
    combinedColumns =
      ["order_id", "customer_name", "order_amount", "order_date", "source",
       "load_timestamp", "order_year", "product_id", "product_name",
       "unit_price", "product_category", "price_with_tax",
       "total_order_value"] ∧
    combinedColumns.Perm specCombinedColumns ∧
    ∀ rows, load_to_csv combinedColumns rows = combinedColumns :: rows :=
  ⟨by decide, by decide, fun _ => rfl⟩

/-- C9: the combined-table validation (`order_schema`) constrains only the
five declared columns `order_id`, `customer_name`, `order_amount`,
`order_date`, `total_order_value`: any table whose rows satisfy those five
checks passes, whatever its product-side fields hold — in particular a
table with `unit_price = 0`, `price_with_tax = 0` and an empty
`product_name` is not rejected (see the witness). -/
theorem order_schema_constrains_only_order_columns (rows : List Combined)
    (now : Date)
    (h : ∀ r ∈ rows, 100 ≤ r.order_id ∧ 1 ≤ r.customer_name.length ∧
      0 < r.order_amount ∧ Date.le r.order_date now = true ∧
      ∃ v, r.total_order_value = some v ∧ 0 < v) :
    order_schema rows now = true := by
  rw [order_schema, List.all_eq_true]
  intro r hr
  obtain ⟨h1, h2, h3, h4, v, hv, hvpos⟩ := h r hr
  simp [h1, h2, h3, h4, hv, hvpos]

/-- Witness for C9: a combined row violating every Product constraint
(`product_name = ""`, `unit_price = 0`, `product_category = ""`,
`price_with_tax = 0`) but with valid order-side fields passes the
combined-table validation. -/
theorem order_schema_constrains_only_order_columns_witness :
    (∀ r ∈ ([⟨101, "A", 20, ⟨2024, 1, 1⟩, "CSV", ⟨2025, 1, 1⟩, 2024, 1,
        "", 0, "", 0, some 31⟩] : List Combined),
      100 ≤ r.order_id ∧ 1 ≤ r.customer_name.length ∧
      0 < r.order_amount ∧ Date.le r.order_date ⟨2025, 1, 1⟩ = true ∧
      ∃ v, r.total_order_value = some v ∧ 0 < v) ∧
    order_schema [⟨101, "A", 20, ⟨2024, 1, 1⟩, "CSV", ⟨2025, 1, 1⟩, 2024,
      1, "", 0, "", 0, some 31⟩] ⟨2025, 1, 1⟩ = true := by
  have h : ∀ r ∈ ([⟨101, "A", 20, ⟨2024, 1, 1⟩, "CSV", ⟨2025, 1, 1⟩, 2024,
      1, "", 0, "", 0, some 31⟩] : List Combined),
      100 ≤ r.order_id ∧ 1 ≤ r.customer_name.length ∧
      0 < r.order_amount ∧ Date.le r.order_date ⟨2025, 1, 1⟩ = true ∧
      ∃ v, r.total_order_value = some v ∧ 0 < v := by
    intro r hr
    simp only [List.mem_singleton] at hr
    subst hr
    exact ⟨by norm_num, by decide, by norm_num, by decide, 31, rfl,
      by norm_num⟩
  exact ⟨h, order_schema_constrains_only_order_columns _ _ h⟩

/-- Rows of a combined table inherit their `source` tag from the order
rows that produced them. -/
theorem source_mem_combineTables (products : List Product)
    (orders : List OrderRow) (r : Combined)
    (hsrc : ∀ o ∈ orders, o.source = "CSV")
    (hr : r ∈ combineTables products orders) : r.source = "CSV" := by
  rcases products with _ | ⟨p₀, ps⟩
  · simp [combineTables] at hr
  · rw [combineTables] at hr
    simp only [List.mem_flatMap, List.mem_map] at hr
    obtain ⟨o, ho, m, hmm, rfl⟩ := hr
    have hms : m.source = o.source := by
      rw [mergeMatches] at hmm
      by_cases hemp :
          ((p₀ :: ps).filter fun p =>
            decide (p.product_id = p₀.product_id)).isEmpty = true
      · simp only [hemp, if_pos] at hmm
        simp only [List.mem_singleton] at hmm
        subst hmm
        rfl
      · simp only [hemp, if_neg, Bool.false_eq_true, not_false_eq_true,
          if_false] at hmm
        simp only [List.mem_map] at hmm
        obtain ⟨p, hp, rfl⟩ := hmm
        rfl
    simp [finishRow, hms, hsrc o ho]

/-- C10: whenever both inputs are non-empty and `transform_data` succeeds,
every row of the returned combined table carries `source = "CSV"`; the
`"API"` tag put on product rows never reaches the output. -/
theorem combined_source_is_csv (api_df : List RawProduct)
    (csv_df : List RawOrder) (now : Date) (t : List Combined)
    (hapi : api_df ≠ []) (hcsv : csv_df ≠ [])
    (h : transform_data api_df csv_df now = .ok t) :
    ∀ r ∈ t, r.source = "CSV" := by
  have hapi' : api_df.isEmpty = false := List.isEmpty_eq_false.mpr hapi
  have hcsv' : csv_df.isEmpty = false := List.isEmpty_eq_false.mpr hcsv
  cases hps : product_schema (apiTransform api_df now) with
  | false => simp [transform_data, hapi', hps] at h
  | true =>
    simp only [transform_data, hapi', hcsv', hps, Bool.not_false,
      Bool.not_true, Bool.and_false, Bool.false_and, Bool.and_true,
      Bool.true_and, if_false, if_true, Bool.false_eq_true] at h
    by_cases hos : order_schema (combinedOf api_df csv_df now) now = true
    · rw [if_pos hos] at h
      have ht : t = combinedOf api_df csv_df now := by
        cases h
        rfl
      subst ht
      intro r hr
      refine source_mem_combineTables (apiTransform api_df now)
        (csvTransform csv_df now) r ?_ hr
      intro o ho
      simp only [csvTransform, List.mem_map] at ho
      obtain ⟨x, hx, rfl⟩ := ho
      rfl
    · rw [if_neg hos] at h
      cases h

/-- Witness for C10: the end-to-end example inputs; the single output row
has `source = "CSV"`. -/
theorem combined_source_is_csv_witness :
    ([⟨1, "Widget", 10, "tools"⟩] : List RawProduct) ≠ [] ∧
    ([⟨101, "A", 20, ⟨2024, 1, 1⟩⟩] : List RawOrder) ≠ [] ∧
    transform_data [⟨1, "Widget", 10, "tools"⟩]
        [⟨101, "A", 20, ⟨2024, 1, 1⟩⟩] ⟨2025, 1, 1⟩ =
      .ok [⟨101, "A", 20, ⟨2024, 1, 1⟩, "CSV", ⟨2025, 1, 1⟩, 2024, 1,
        "Widget", 10, "tools", 11, some 31⟩] ∧
    ∀ r ∈ ([⟨101, "A", 20, ⟨2024, 1, 1⟩, "CSV", ⟨2025, 1, 1⟩, 2024, 1,
        "Widget", 10, "tools", 11, some 31⟩] : List Combined),
      r.source = "CSV" := by
  have h11 : (10 : ℚ) * (11 / 10) = 11 := by norm_num
  have hd : Date.le ⟨2024, 1, 1⟩ ⟨2025, 1, 1⟩ = true := by decide
  have h : transform_data [⟨1, "Widget", 10, "tools"⟩]
      [⟨101, "A", 20, ⟨2024, 1, 1⟩⟩] ⟨2025, 1, 1⟩ =
      .ok [⟨101, "A", 20, ⟨2024, 1, 1⟩, "CSV", ⟨2025, 1, 1⟩, 2024, 1,
        "Widget", 10, "tools", 11, some 31⟩] := by
    simp [transform_data, apiTransform, csvTransform, product_schema,
      order_schema, combinedOf, combineTables, mergeMatches, finishRow,
      hd, h11]
    rw [if_neg (by decide), if_pos ⟨by decide, by norm_num⟩]
    norm_num
  exact ⟨by simp, by simp, h,
    combined_source_is_csv _ _ _ _ (by simp) (by simp) h⟩

end Pipeline
